import Mathlib

/-!
Verification development for the valuation-tool signal-detection core.

Shallow embedding of the decision logic of
`src/valuation_tool/services/significance.py`,
`src/valuation_tool/services/change_detection.py`,
`src/valuation_tool/services/leadership.py` and
`src/valuation_tool/services/news_monitoring.py`.

Content strings are modelled as `List Char` (Python `str` as a sequence of
code points); floating-point confidences are modelled as exact rationals.
Lowercasing uses `Char.toLower`, which agrees with Python `str.lower` on
ASCII (all keyword phrases are ASCII).
-/

set_option maxRecDepth 8000

-- ---------------------------------------------------------------------------
-- Enumerations (valuation_tool/models.py)
-- ---------------------------------------------------------------------------

/-- `ChangeMagnitude` from models.py. -/
inductive ChangeMagnitude where
  | minor
  | moderate
  | major
deriving DecidableEq, Repr

/-- `SignificanceClassification` from models.py. -/
inductive SignificanceClassification where
  | significant
  | insignificant
  | uncertain
deriving DecidableEq, Repr

/-- `SignificanceSentiment` from models.py. -/
inductive SignificanceSentiment where
  | positive
  | negative
  | neutral
  | mixed
deriving DecidableEq, Repr

/-- `KeywordMatch` from models.py.  Context windows are slices of the
original content and are kept as character lists. -/
structure KeywordMatch where
  keyword : String
  position : Nat := 0
  context_before : List Char := []
  context_after : List Char := []
  category : String := ""
  is_negated : Bool := false
  is_false_positive : Bool := false
deriving DecidableEq, Repr

/-- `SignificanceResult` from models.py (the `notes` field, never set by
`analyze_significance`, is omitted). -/
structure SignificanceResult where
  classification : SignificanceClassification
  sentiment : SignificanceSentiment
  confidence : ℚ
  matched_keywords : List String
  matched_categories : List String
deriving DecidableEq, Repr

-- ---------------------------------------------------------------------------
-- Keyword dictionaries (services/significance.py)
-- Python dicts preserve insertion order; they are modelled as ordered
-- association lists.
-- ---------------------------------------------------------------------------

/-- `POSITIVE_KEYWORDS` from significance.py. -/
def POSITIVE_KEYWORDS : List (String × List String) :=
  [ ("funding_investment",
      ["series a", "series b", "series c", "series d", "series e",
       "seed round", "funding round", "raised", "funding",
       "venture capital", "valuation", "investment round",
       "pre-seed", "angel round"]),
    ("product_launch",
      ["launched", "launch", "beta release", "general availability",
       "new product", "product release", "now available", "go live"]),
    ("growth_success",
      ["revenue growth", "milestone", "profitable", "record revenue",
       "year over year growth", "customer growth", "user growth"]),
    ("partnerships",
      ["partnership", "joint venture", "strategic alliance",
       "collaboration", "partner"]),
    ("expansion",
      ["new office", "hiring", "expansion", "international expansion",
       "new market", "headcount growth", "opening new"]),
    ("recognition",
      ["innovation award", "top 10", "top 50", "best places to work",
       "award", "recognized"]),
    ("ipo_exit",
      ["filed s-1", "nasdaq", "nyse", "ipo", "public offering",
       "going public", "spac"]) ]

/-- `NEGATIVE_KEYWORDS` from significance.py. -/
def NEGATIVE_KEYWORDS : List (String × List String) :=
  [ ("closure",
      ["shut down", "shutdown", "ceased operations", "winding down",
       "closing", "closed", "dissolved"]),
    ("layoffs_downsizing",
      ["layoffs", "laid off", "lays off", "workforce reduction",
       "job cuts", "downsizing", "restructuring", "rif"]),
    ("financial_distress",
      ["chapter 11", "chapter 7", "bankruptcy", "insolvent",
       "cash crunch", "default", "debt crisis"]),
    ("legal_issues",
      ["lawsuit", "investigation", "settlement", "sued",
       "regulatory action", "fine", "penalty"]),
    ("security_breach",
      ["data breach", "hacked", "ransomware", "cyber attack",
       "security incident", "compromised"]),
    ("acquisition",
      ["acquired by", "merged with", "sold to",
       "acquisition", "takeover"]),
    ("leadership_changes",
      ["ceo resigned", "ceo departed", "founder left", "cto left",
       "stepping down", "leadership transition", "new ceo",
       "retired", "resigned"]),
    ("product_failures",
      ["product recall", "discontinued", "sunset",
       "end of life", "deprecate"]),
    ("market_exit",
      ["exiting market", "market withdrawal", "divesting",
       "pulling out of"]) ]

/-- `INSIGNIFICANT_PATTERNS` from significance.py. -/
def INSIGNIFICANT_PATTERNS : List (String × List String) :=
  [ ("css_styling",
      ["font-family", "font-size", "background-color", "color:",
       "margin:", "padding:", "border:", "text-align"]),
    ("copyright_year",
      ["copyright", "all rights reserved", "©"]),
    ("tracking_analytics",
      ["google-analytics", "gtag", "tracking code", "analytics",
       "pixel", "facebook pixel"]) ]

/-- `FALSE_POSITIVE_PATTERNS` from significance.py. -/
def FALSE_POSITIVE_PATTERNS : List String :=
  ["talent acquisition", "customer acquisition", "data acquisition",
   "user acquisition", "funding opportunities", "funding sources",
   "self-funded"]

/-- `NEGATION_WORDS` from significance.py. -/
def NEGATION_WORDS : List String := ["no", "not", "never", "without", "lacks"]

-- ---------------------------------------------------------------------------
-- Character-list helpers (Python string primitives)
-- ---------------------------------------------------------------------------

/-- Python `str.lower` (ASCII case folding). -/
def lowerChars (s : List Char) : List Char := s.map Char.toLower

/-- Python `str.upper` (ASCII case folding). -/
def upperChars (s : List Char) : List Char := s.map Char.toUpper

/-- Python slice `s[a:b]` (indices clamped to the string, as in Python). -/
def sliceChars (s : List Char) (a b : Nat) : List Char := (s.take b).drop a

/-- Helper for `strFind`: first position `p ≥ pos` at which `needle` is a
prefix of the remaining text (the remaining text is `l`). -/
def findAux (needle : List Char) : List Char → Nat → Option Nat
  | [], pos => if needle = [] then some pos else none
  | c :: rest, pos =>
    if needle.isPrefixOf (c :: rest) then some pos
    else findAux needle rest (pos + 1)

/-- Python `hay.find(needle, start)` (with `none` standing for `-1`). -/
def strFind (hay needle : List Char) (start : Nat) : Option Nat :=
  findAux needle (hay.drop start) start

/-- Python `needle in hay` (substring test). -/
def containsSub (hay needle : List Char) : Bool := (strFind hay needle 0).isSome

/-- The scanning loop of `_find_keywords`: collect the occurrence positions of
`needle` in `hay`, resuming each search at `pos + len(needle)` exactly as the
`while True` loop does.  The fuel argument bounds the number of iterations;
every iteration advances `idx` by at least one (keyword phrases are nonempty
and every hit position is below `hay.length`), so `hay.length + 1` iterations
always suffice. -/
def occurrencesAux (hay needle : List Char) : Nat → Nat → List Nat
  | 0, _ => []
  | fuel + 1, idx =>
    match strFind hay needle idx with
    | none => []
    | some pos => pos :: occurrencesAux hay needle fuel (pos + needle.length)

/-- All occurrence positions found by the `_find_keywords` scanning loop. -/
def occurrences (hay needle : List Char) : List Nat :=
  occurrencesAux hay needle (hay.length + 1) 0

/-- Python `str.split()` (split on whitespace runs, no empty pieces). -/
def splitWsAux : List Char → List Char → List (List Char)
  | [], acc => if acc = [] then [] else [acc.reverse]
  | c :: cs, acc =>
    if c.isWhitespace then
      if acc = [] then splitWsAux cs [] else acc.reverse :: splitWsAux cs []
    else splitWsAux cs (c :: acc)

/-- Python `str.split()` on a character list. -/
def splitWs (s : List Char) : List (List Char) := splitWsAux s []

-- ---------------------------------------------------------------------------
-- Keyword detection (services/significance.py)
-- ---------------------------------------------------------------------------

/-- `_is_negated` from significance.py: the keyword is preceded by a negation
word within a ~20-character window.  (`max(0, keyword_pos - 20)` is natural
subtraction; Python's `strip()` is subsumed by `split()`.) -/
def is_negated (content_lower : List Char) (keyword_pos : Nat) : Bool :=
  let pre := sliceChars content_lower (keyword_pos - 20) keyword_pos
  (splitWs pre).any (fun w => NEGATION_WORDS.any (fun n => n.data = w))

/-- `_is_false_positive` from significance.py: the occurrence sits within a
~30-character window of a known benign collocation. -/
def is_false_positive (content_lower : List Char) (keyword_pos : Nat)
    (keyword : List Char) : Bool :=
  let start := keyword_pos - 30
  let stop := min content_lower.length (keyword_pos + keyword.length + 30)
  let ctx := sliceChars content_lower start stop
  FALSE_POSITIVE_PATTERNS.any (fun p => containsSub ctx p.data)

/-- One `KeywordMatch` record as built inside `_find_keywords`. -/
def mkKeywordMatch (content content_lower : List Char) (category : String)
    (keyword : String) (pos : Nat) : KeywordMatch :=
  { keyword := keyword
    position := pos
    context_before := sliceChars content (pos - 50) pos
    context_after :=
      sliceChars content (pos + keyword.data.length)
        (min content.length (pos + keyword.data.length + 50))
    category := category
    is_negated := is_negated content_lower pos
    is_false_positive := is_false_positive content_lower pos keyword.data }

/-- `_find_keywords` from significance.py: all keyword matches, in dictionary
order, with context and the negation / false-positive flags. -/
def find_keywords (content : List Char)
    (keyword_dict : List (String × List String)) : List KeywordMatch :=
  let content_lower := lowerChars content
  keyword_dict.flatMap (fun cat =>
    cat.2.flatMap (fun kw =>
      (occurrences content_lower kw.data).map
        (mkKeywordMatch content content_lower cat.1 kw)))

/-- `_find_insignificant_patterns` from significance.py. -/
def find_insignificant_patterns (content : List Char) : List KeywordMatch :=
  let content_lower := lowerChars content
  INSIGNIFICANT_PATTERNS.flatMap (fun cat =>
    cat.2.filterMap (fun p =>
      if containsSub content_lower p.data then
        some { keyword := p, category := cat.1 }
      else none))

-- ---------------------------------------------------------------------------
-- Classification (services/significance.py)
-- ---------------------------------------------------------------------------

/-- `_classify_sentiment` from significance.py. -/
def classify_sentiment (positive_count negative_count : Nat) :
    SignificanceSentiment :=
  if 2 ≤ positive_count ∧ 2 ≤ negative_count then .mixed
  else if 2 ≤ positive_count then .positive
  else if 2 ≤ negative_count then .negative
  else .neutral

/-- The positive-taxonomy raw matches of `analyze_significance`. -/
def positiveMatches (content : List Char) : List KeywordMatch :=
  find_keywords content POSITIVE_KEYWORDS

/-- The negative-taxonomy raw matches of `analyze_significance`. -/
def negativeMatches (content : List Char) : List KeywordMatch :=
  find_keywords content NEGATIVE_KEYWORDS

/-- The effectiveness filter of `analyze_significance`: drop negated and
false-positive matches. -/
def effectiveOf (ms : List KeywordMatch) : List KeywordMatch :=
  ms.filter (fun m => !m.is_negated && !m.is_false_positive)

/-- `pos_count` in `analyze_significance`. -/
def posCountOf (content : List Char) : Nat :=
  (effectiveOf (positiveMatches content)).length

/-- `neg_count` in `analyze_significance`. -/
def negCountOf (content : List Char) : Nat :=
  (effectiveOf (negativeMatches content)).length

/-- `negated_count` in `analyze_significance`: negated raw matches over both
taxonomies. -/
def negatedCountOf (content : List Char) : Nat :=
  ((positiveMatches content ++ negativeMatches content).filter
    (fun m => m.is_negated)).length

/-- `fp_count` in `analyze_significance`: false-positive raw matches over both
taxonomies. -/
def fpCountOf (content : List Char) : Nat :=
  ((positiveMatches content ++ negativeMatches content).filter
    (fun m => m.is_false_positive)).length

/-- Python `max(0.0, min(1.0, x))`, the confidence clamp. -/
def clamp01 (x : ℚ) : ℚ := max 0 (min 1 x)

/-- `all_keywords` in `analyze_significance` (line 248): keyword strings of
the effective matches of both taxonomies, duplicates retained. -/
def matchedKeywordsOf (content : List Char) : List String :=
  ((effectiveOf (positiveMatches content)) ++
    effectiveOf (negativeMatches content)).map (fun m => m.keyword)

/-- `all_categories` in `analyze_significance` (line 249).  Python builds
`list({...})`, whose set-iteration order is unspecified; it is modelled as
first-occurrence deduplication. -/
def matchedCategoriesOf (content : List Char) : List String :=
  (((effectiveOf (positiveMatches content)) ++
    effectiveOf (negativeMatches content)).map (fun m => m.category)).dedup

/-- The classification cascade of `analyze_significance` (lines 257-327),
as a function of the counts computed in lines 236-255. -/
def significanceFromCounts (pos_count neg_count negated_count fp_count : Nat)
    (insignificant_matches : List KeywordMatch) (magnitude : ChangeMagnitude)
    (all_keywords all_categories : List String) : SignificanceResult :=
  let total_keyword_count := pos_count + neg_count
  let sentiment := classify_sentiment pos_count neg_count
  -- Rule 1: only insignificant patterns with minor magnitude
  if total_keyword_count = 0 ∧ insignificant_matches ≠ [] ∧
      magnitude = ChangeMagnitude.minor then
    { classification := .insignificant
      sentiment := .neutral
      confidence := 0.85
      matched_keywords := insignificant_matches.map (fun m => m.keyword)
      matched_categories := insignificant_matches.map (fun m => m.category) }
  -- Rule 2: 2+ negative keywords
  else if 2 ≤ neg_count then
    { classification := .significant
      sentiment := sentiment
      confidence := clamp01 (min (0.80 + 0.05 * ((neg_count : ℚ) - 2)) 0.95 -
        (0.20 * (negated_count : ℚ) + 0.30 * (fp_count : ℚ)))
      matched_keywords := all_keywords
      matched_categories := all_categories }
  -- Rule 3: 2+ positive keywords
  else if 2 ≤ pos_count then
    { classification := .significant
      sentiment := sentiment
      confidence := clamp01 (min (0.80 + 0.03 * ((pos_count : ℚ) - 2)) 0.90 -
        (0.20 * (negated_count : ℚ) + 0.30 * (fp_count : ℚ)))
      matched_keywords := all_keywords
      matched_categories := all_categories }
  -- Rule 4: 1 keyword + major magnitude
  else if 1 ≤ total_keyword_count ∧ magnitude = ChangeMagnitude.major then
    { classification := .significant
      sentiment := sentiment
      confidence := clamp01 (0.70 -
        (0.20 * (negated_count : ℚ) + 0.30 * (fp_count : ℚ)))
      matched_keywords := all_keywords
      matched_categories := all_categories }
  -- Rule 5: 1 keyword + minor/moderate magnitude
  else if 1 ≤ total_keyword_count then
    { classification := .uncertain
      sentiment := sentiment
      confidence := clamp01 (0.50 -
        (0.20 * (negated_count : ℚ) + 0.30 * (fp_count : ℚ)))
      matched_keywords := all_keywords
      matched_categories := all_categories }
  -- Rule 6: no keywords
  else
    { classification := .insignificant
      sentiment := .neutral
      confidence := 0.75
      matched_keywords := []
      matched_categories := [] }

/-- `analyze_significance` from significance.py (lines 222-327): keyword-based
significance analysis of content, factored through the counts computed in
lines 236-255 (the named definitions above) and the cascade
`significanceFromCounts` (lines 257-327). -/
def analyze_significance (content : List Char) (magnitude : ChangeMagnitude) :
    SignificanceResult :=
  significanceFromCounts (posCountOf content) (negCountOf content)
    (negatedCountOf content) (fpCountOf content)
    (find_insignificant_patterns content) magnitude
    (matchedKeywordsOf content) (matchedCategoriesOf content)

-- ---------------------------------------------------------------------------
-- Change magnitude (services/change_detection.py)
-- ---------------------------------------------------------------------------

/-- `_calculate_magnitude` from change_detection.py. -/
def calculate_magnitude (similarity : ℚ) : ChangeMagnitude :=
  if 0.90 ≤ similarity then .minor
  else if 0.50 ≤ similarity then .moderate
  else .major

-- ---------------------------------------------------------------------------
-- Basic facts about the confidence clamp
-- ---------------------------------------------------------------------------

theorem clamp01_nonneg (x : ℚ) : 0 ≤ clamp01 x := le_max_left 0 _

theorem clamp01_le_one (x : ℚ) : clamp01 x ≤ 1 :=
  max_le (by norm_num) (min_le_left 1 x)

theorem clamp01_mono {a b : ℚ} (h : a ≤ b) : clamp01 a ≤ clamp01 b :=
  max_le_max (le_refl 0) (min_le_min (le_refl 1) h)

-- ---------------------------------------------------------------------------
-- Cascade branch lemmas
-- ---------------------------------------------------------------------------

/-- When the effective negative count is at least 2, the cascade takes
rule 2 and nothing else. -/
theorem significanceFromCounts_rule2 (pos neg negated fp : Nat)
    (insig : List KeywordMatch) (m : ChangeMagnitude) (kws cats : List String)
    (h : 2 ≤ neg) :
    significanceFromCounts pos neg negated fp insig m kws cats =
      { classification := .significant
        sentiment := classify_sentiment pos neg
        confidence := clamp01 (min (0.80 + 0.05 * ((neg : ℚ) - 2)) 0.95 -
          (0.20 * (negated : ℚ) + 0.30 * (fp : ℚ)))
        matched_keywords := kws
        matched_categories := cats } := by
  have h1 : ¬(pos + neg = 0 ∧ insig ≠ [] ∧ m = ChangeMagnitude.minor) := by
    rintro ⟨h0, -, -⟩; omega
  simp only [significanceFromCounts]
  rw [if_neg h1, if_pos h]

/-- Bounds of the cascade confidence, for every combination of counts. -/
theorem significanceFromCounts_confidence_bounds (pos neg negated fp : Nat)
    (insig : List KeywordMatch) (m : ChangeMagnitude)
    (kws cats : List String) :
    0 ≤ (significanceFromCounts pos neg negated fp insig m kws cats).confidence ∧
    (significanceFromCounts pos neg negated fp insig m kws cats).confidence ≤ 1 := by
  simp only [significanceFromCounts]
  split_ifs
  · exact ⟨by norm_num, by norm_num⟩
  · exact ⟨clamp01_nonneg _, clamp01_le_one _⟩
  · exact ⟨clamp01_nonneg _, clamp01_le_one _⟩
  · exact ⟨clamp01_nonneg _, clamp01_le_one _⟩
  · exact ⟨clamp01_nonneg _, clamp01_le_one _⟩
  · exact ⟨by norm_num, by norm_num⟩

/-- Claim C9: for every content string and every magnitude, the confidence of
the `SignificanceResult` returned by `analyze_significance` lies in the
closed interval `[0, 1]` (also after the negation / false-positive penalties
of rules 2-5 are subtracted). -/
theorem analyze_significance_confidence_in_unit_interval
    (content : List Char) (magnitude : ChangeMagnitude) :
    0 ≤ (analyze_significance content magnitude).confidence ∧
    (analyze_significance content magnitude).confidence ≤ 1 :=
  significanceFromCounts_confidence_bounds _ _ _ _ _ _ _ _

/-- Claim C1: whenever the number of effective negative keyword matches (raw
negative-taxonomy matches that are neither negated nor false-positive) is at
least 2, `analyze_significance` classifies the content as `significant` with
confidence `min(0.80 + 0.05 * (neg_count - 2), 0.95)`, reduced by `0.20` per
negated raw match and `0.30` per false-positive raw match counted over the
raw matches of both taxonomies, then clamped to `[0, 1]`. -/
theorem analyze_significance_negative_rule (content : List Char)
    (magnitude : ChangeMagnitude) (h : 2 ≤ negCountOf content) :
    (analyze_significance content magnitude).classification =
      SignificanceClassification.significant ∧
    (analyze_significance content magnitude).confidence =
      clamp01 (min (0.80 + 0.05 * ((negCountOf content : ℚ) - 2)) 0.95 -
        (0.20 * (negatedCountOf content : ℚ) + 0.30 * (fpCountOf content : ℚ))) := by
  unfold analyze_significance
  rw [significanceFromCounts_rule2 _ _ _ _ _ _ _ _ h]
  exact ⟨rfl, rfl⟩

/-- Witness for C1 at the concrete content "layoffs bankruptcy" (two
effective negative matches). -/
theorem analyze_significance_negative_rule_witness :
    2 ≤ negCountOf "layoffs bankruptcy".data ∧
    (analyze_significance "layoffs bankruptcy".data ChangeMagnitude.moderate).classification =
      SignificanceClassification.significant ∧
    (analyze_significance "layoffs bankruptcy".data ChangeMagnitude.moderate).confidence =
      clamp01 (min (0.80 + 0.05 * ((negCountOf "layoffs bankruptcy".data : ℚ) - 2)) 0.95 -
        (0.20 * (negatedCountOf "layoffs bankruptcy".data : ℚ) +
         0.30 * (fpCountOf "layoffs bankruptcy".data : ℚ))) :=
  ⟨by decide,
   (analyze_significance_negative_rule _ ChangeMagnitude.moderate (by decide)).1,
   (analyze_significance_negative_rule _ ChangeMagnitude.moderate (by decide)).2⟩

-- ---------------------------------------------------------------------------
-- Negation monotonicity (section 8 of the specification)
-- ---------------------------------------------------------------------------

/-- Claim C2 (counterexample): the claimed negation monotonicity fails on the
code.  The content "not bankruptcy" contains exactly one negative-taxonomy
keyword occurrence ("bankruptcy"), and it is negated (the word "not" lies in
the ~20-character preceding window); removing the negation word gives
"bankruptcy".  At magnitude `minor` the negated content falls through to
rule 6 (no effective keywords, confidence 0.75) while the un-negated content
hits rule 5 (confidence 0.50), so the negated confidence is strictly larger,
contradicting the claim. -/
theorem negation_monotonicity_counterexample :
    "not bankruptcy".data = "not ".data ++ "bankruptcy".data ∧
    (negativeMatches "not bankruptcy".data).map
      (fun m => (m.keyword, m.is_negated, m.is_false_positive)) =
      [("bankruptcy", true, false)] ∧
    ¬ ((analyze_significance "not bankruptcy".data ChangeMagnitude.minor).confidence ≤
       (analyze_significance "bankruptcy".data ChangeMagnitude.minor).confidence) :=
  ⟨by decide, by decide, by with_unfolding_all decide⟩

/-- Monotonicity of the cascade in the situation described by claim C2, at
the level of counts: content 1 has one additional negated (hence
non-effective) negative raw match compared to content 2, and at least one
effective keyword match remains. -/
theorem significanceFromCounts_negation_mono (p pn pf : Nat)
    (insig₁ insig₂ : List KeywordMatch) (m : ChangeMagnitude)
    (kw₁ cat₁ kw₂ cat₂ : List String) (hp : 1 ≤ p) :
    (significanceFromCounts p 0 (pn + 1) pf insig₁ m kw₁ cat₁).confidence ≤
    (significanceFromCounts p 1 pn pf insig₂ m kw₂ cat₂).confidence := by
  have h1 : ¬(p + 0 = 0 ∧ insig₁ ≠ [] ∧ m = ChangeMagnitude.minor) := by
    rintro ⟨h0, -, -⟩; omega
  have h1' : ¬(p + 1 = 0 ∧ insig₂ ≠ [] ∧ m = ChangeMagnitude.minor) := by
    rintro ⟨h0, -, -⟩; omega
  simp only [significanceFromCounts]
  rw [if_neg h1, if_neg h1', if_neg (by omega : ¬(2 : Nat) ≤ 0),
    if_neg (by omega : ¬(2 : Nat) ≤ 1)]
  by_cases h3 : 2 ≤ p
  · rw [if_pos h3, if_pos h3]
    apply clamp01_mono
    push_cast
    linarith
  · rw [if_neg h3, if_neg h3]
    by_cases h4 : m = ChangeMagnitude.major
    · rw [if_pos ⟨by omega, h4⟩, if_pos ⟨by omega, h4⟩]
      apply clamp01_mono
      push_cast
      linarith
    · have hr4 : ¬(1 ≤ p + 0 ∧ m = ChangeMagnitude.major) := fun hc => h4 hc.2
      have hr4' : ¬(1 ≤ p + 1 ∧ m = ChangeMagnitude.major) := fun hc => h4 hc.2
      rw [if_neg hr4, if_neg hr4',
        if_pos (by omega : 1 ≤ p + 0), if_pos (by omega : 1 ≤ p + 1)]
      apply clamp01_mono
      push_cast
      linarith

/-- Claim C2 (amended): for any two contents whose raw-match profiles agree
except that the first carries exactly one negative-taxonomy occurrence which
is negated while the second carries that same single occurrence un-negated
(as when removing the negation word un-negates only that match), and which
retain at least one effective keyword match, the confidence returned for the
negated content is at most the confidence returned for the un-negated
content at any fixed magnitude.  (The restriction to contents retaining an
effective match is forced by the counterexample: with no effective match
left, the negated content falls to rule 6 with fixed confidence 0.75.) -/
theorem negation_monotonicity_amended (c₁ c₂ : List Char)
    (m : ChangeMagnitude) (m₁ m₂ : KeywordMatch)
    (hneg1 : negativeMatches c₁ = [m₁])
    (hm1n : m₁.is_negated = true) (hm1f : m₁.is_false_positive = false)
    (hneg2 : negativeMatches c₂ = [m₂])
    (hm2n : m₂.is_negated = false) (hm2f : m₂.is_false_positive = false)
    (hpos : posCountOf c₁ = posCountOf c₂)
    (hpn : ((positiveMatches c₁).filter (fun m => m.is_negated)).length =
           ((positiveMatches c₂).filter (fun m => m.is_negated)).length)
    (hpf : ((positiveMatches c₁).filter (fun m => m.is_false_positive)).length =
           ((positiveMatches c₂).filter (fun m => m.is_false_positive)).length)
    (hone : 1 ≤ posCountOf c₁) :
    (analyze_significance c₁ m).confidence ≤
    (analyze_significance c₂ m).confidence := by
  have hn1 : negCountOf c₁ = 0 := by
    simp [negCountOf, effectiveOf, hneg1, hm1n]
  have hn2 : negCountOf c₂ = 1 := by
    simp [negCountOf, effectiveOf, hneg2, hm2n, hm2f]
  have hng1 : negatedCountOf c₁ =
      ((positiveMatches c₁).filter (fun m => m.is_negated)).length + 1 := by
    simp [negatedCountOf, List.filter_append, hneg1, hm1n]
  have hng2 : negatedCountOf c₂ =
      ((positiveMatches c₁).filter (fun m => m.is_negated)).length := by
    simp [negatedCountOf, List.filter_append, hneg2, hm2n, hpn]
  have hfp1 : fpCountOf c₁ =
      ((positiveMatches c₁).filter (fun m => m.is_false_positive)).length := by
    simp [fpCountOf, List.filter_append, hneg1, hm1f]
  have hfp2 : fpCountOf c₂ =
      ((positiveMatches c₁).filter (fun m => m.is_false_positive)).length := by
    simp [fpCountOf, List.filter_append, hneg2, hm2f, hpf]
  unfold analyze_significance
  rw [hn1, hn2, hng1, hng2, hfp1, hfp2, ← hpos]
  exact significanceFromCounts_negation_mono _ _ _ _ _ _ _ _ _ _ hone

/-- Witness for the amended C2 at a concrete pair of contents:
"hiring no layoffs" (single negated negative match, one effective positive
match) versus "hiring layoffs" (the negation word removed). -/
theorem negation_monotonicity_amended_witness :
    (analyze_significance "hiring no layoffs".data ChangeMagnitude.minor).confidence ≤
    (analyze_significance "hiring layoffs".data ChangeMagnitude.minor).confidence :=
  negation_monotonicity_amended _ _ ChangeMagnitude.minor
    { keyword := "layoffs", position := 10,
      context_before := "hiring no ".data, context_after := [],
      category := "layoffs_downsizing", is_negated := true,
      is_false_positive := false }
    { keyword := "layoffs", position := 7,
      context_before := "hiring ".data, context_after := [],
      category := "layoffs_downsizing", is_negated := false,
      is_false_positive := false }
    (by decide) rfl rfl (by decide) rfl rfl (by decide) (by decide) (by decide)
    (by decide)

-- ---------------------------------------------------------------------------
-- Change magnitude bucketing
-- ---------------------------------------------------------------------------

/-- Claim C3: for every similarity value in `[0, 1]`, the derived magnitude
is `minor` iff the value is at least 0.90, `moderate` iff it lies in
`[0.50, 0.90)`, and `major` iff it is below 0.50. -/
theorem calculate_magnitude_spec (similarity : ℚ)
    (h0 : 0 ≤ similarity) (h1 : similarity ≤ 1) :
    (calculate_magnitude similarity = ChangeMagnitude.minor ↔
      0.90 ≤ similarity) ∧
    (calculate_magnitude similarity = ChangeMagnitude.moderate ↔
      0.50 ≤ similarity ∧ similarity < 0.90) ∧
    (calculate_magnitude similarity = ChangeMagnitude.major ↔
      similarity < 0.50) := by
  unfold calculate_magnitude
  split_ifs with ha hb
  · refine ⟨⟨fun _ => ha, fun _ => rfl⟩,
      ⟨fun hx => ?_, fun hx => absurd ha (not_le.mpr hx.2)⟩,
      ⟨fun hx => ?_,
       fun hx => absurd ha (not_le.mpr (hx.trans (by norm_num)))⟩⟩
    · cases hx
    · cases hx
  · refine ⟨⟨fun hx => ?_, fun hx => absurd hx ha⟩,
      ⟨fun _ => ⟨hb, lt_of_not_le ha⟩, fun _ => rfl⟩,
      ⟨fun hx => ?_, fun hx => absurd hb (not_le.mpr hx)⟩⟩
    · cases hx
    · cases hx
  · refine ⟨⟨fun hx => ?_, fun hx => absurd hx ha⟩,
      ⟨fun hx => ?_, fun hx => absurd hx.1 hb⟩,
      ⟨fun _ => lt_of_not_le hb, fun _ => rfl⟩⟩
    · cases hx
    · cases hx

/-- Witness for C3 at the boundary values named by the specification:
0.90 is `minor`, 0.89 is `moderate`, 0.50 is `moderate`, 0.49 is `major`. -/
theorem calculate_magnitude_spec_witness :
    calculate_magnitude 0.90 = ChangeMagnitude.minor ∧
    calculate_magnitude 0.89 = ChangeMagnitude.moderate ∧
    calculate_magnitude 0.50 = ChangeMagnitude.moderate ∧
    calculate_magnitude 0.49 = ChangeMagnitude.major :=
  ⟨(calculate_magnitude_spec 0.90 (by norm_num) (by norm_num)).1.mpr
      (by norm_num),
   (calculate_magnitude_spec 0.89 (by norm_num) (by norm_num)).2.1.mpr
      (by norm_num),
   (calculate_magnitude_spec 0.50 (by norm_num) (by norm_num)).2.1.mpr
      (by norm_num),
   (calculate_magnitude_spec 0.49 (by norm_num) (by norm_num)).2.2.mpr
      (by norm_num)⟩

-- ---------------------------------------------------------------------------
-- Leadership title detection and normalization (services/leadership.py)
-- ---------------------------------------------------------------------------

/-- Python regex `\w` (ASCII word characters; the titles handled by the
source are ASCII). -/
def isWordChar (c : Char) : Bool := c.isAlphanum || c = '_'

/-- A pattern matcher over a character list: given the text and a start
position it returns the candidate end positions of a match at that start, in
the backtracking preference order of Python's `re` engine (greedy
alternatives first). -/
def Matcher : Type := List Char → Nat → List Nat

/-- Case-insensitive literal (`re.IGNORECASE` applies to every pattern of
`_LEADERSHIP_PATTERNS`; literals are written lowercase). -/
def mLit (lit : List Char) : Matcher := fun s i =>
  if lowerChars (sliceChars s i (i + lit.length)) = lit then
    [i + lit.length]
  else []

/-- Sequencing of two pattern pieces (backtracking order preserved). -/
def mSeq (p q : Matcher) : Matcher := fun s i =>
  (p s i).flatMap (fun j => q s j)

/-- Ordered alternation `(x|y|...)`. -/
def mAlt (ps : List Matcher) : Matcher := fun s i =>
  ps.flatMap (fun p => p s i)

/-- Greedy option `(?:x)?`: prefer matching, fall back to the empty match. -/
def mOpt (p : Matcher) : Matcher := fun s i => p s i ++ [i]

/-- Greedy one-or-more of a character class (`\w+`, `\s+`): longest match
first, backtracking down to a single character. -/
def mPlus (pred : Char → Bool) : Matcher := fun s i =>
  let run := ((s.drop i).takeWhile pred).length
  (List.range run).map (fun k => i + run - k)

/-- Zero-width word boundary `\b`. -/
def mBoundary : Matcher := fun s i =>
  let w := fun (j : Nat) =>
    match s.get? j with
    | some c => isWordChar c
    | none => false
  let left := if i = 0 then false else w (i - 1)
  if left ≠ w i then [i] else []

/-- `re.search`: the leftmost match, returned as (start, stop); among matches
at the same start the engine's preference order decides. -/
def mSearch (p : Matcher) (s : List Char) : Option (Nat × Nat) :=
  (List.range (s.length + 1)).findSome? (fun i =>
    match p s i with
    | [] => none
    | j :: _ => some (i, j))

/-- `\s+`. -/
def wsPlus : Matcher := mPlus Char.isWhitespace

/-- `\w+`. -/
def wordPlus : Matcher := mPlus isWordChar

/-- Pattern 1 of `_LEADERSHIP_PATTERNS`: `\b(CEO|CTO|COO|CFO|CMO|CRO|CSO)\b`. -/
def pAcronym : Matcher :=
  mSeq mBoundary (mSeq (mAlt [mLit "ceo".data, mLit "cto".data,
    mLit "coo".data, mLit "cfo".data, mLit "cmo".data, mLit "cro".data,
    mLit "cso".data]) mBoundary)

/-- Pattern 2: `\bChief\s+\w+\s+Officer\b`. -/
def pChiefOfficer : Matcher :=
  mSeq mBoundary (mSeq (mLit "chief".data) (mSeq wsPlus (mSeq wordPlus
    (mSeq wsPlus (mSeq (mLit "officer".data) mBoundary)))))

/-- Pattern 3: `\b(?:Co-?[Ff]ounder|Cofounder)\b` (redundant second branch
kept for order fidelity). -/
def pCofounder : Matcher :=
  mSeq mBoundary (mSeq (mAlt
    [mSeq (mLit "co".data) (mSeq (mOpt (mLit "-".data)) (mLit "founder".data)),
     mLit "cofounder".data]) mBoundary)

/-- Pattern 4: `\bFounder\b`. -/
def pFounder : Matcher :=
  mSeq mBoundary (mSeq (mLit "founder".data) mBoundary)

/-- Pattern 5: `\bPresident\b`. -/
def pPresident : Matcher :=
  mSeq mBoundary (mSeq (mLit "president".data) mBoundary)

/-- Pattern 6: `\bManaging\s+Director\b`. -/
def pManagingDirector : Matcher :=
  mSeq mBoundary (mSeq (mLit "managing".data)
    (mSeq wsPlus (mSeq (mLit "director".data) mBoundary)))

/-- Pattern 7: `\bGeneral\s+Manager\b`. -/
def pGeneralManager : Matcher :=
  mSeq mBoundary (mSeq (mLit "general".data)
    (mSeq wsPlus (mSeq (mLit "manager".data) mBoundary)))

/-- Pattern 8: `\bVP\s+(?:of\s+)?\w+\b`. -/
def pVP : Matcher :=
  mSeq mBoundary (mSeq (mLit "vp".data) (mSeq wsPlus
    (mSeq (mOpt (mSeq (mLit "of".data) wsPlus)) (mSeq wordPlus mBoundary))))

/-- Pattern 9: `\bVice\s+President(?:\s+of\s+\w+)?\b`. -/
def pVicePresident : Matcher :=
  mSeq mBoundary (mSeq (mLit "vice".data) (mSeq wsPlus
    (mSeq (mLit "president".data)
      (mSeq (mOpt (mSeq wsPlus (mSeq (mLit "of".data) (mSeq wsPlus wordPlus))))
        mBoundary))))

/-- `_LEADERSHIP_PATTERNS` from leadership.py (order matters). -/
def LEADERSHIP_PATTERNS : List Matcher :=
  [pAcronym, pChiefOfficer, pCofounder, pFounder, pPresident,
   pManagingDirector, pGeneralManager, pVP, pVicePresident]

/-- `_TITLE_CANONICALIZATION` from leadership.py. -/
def TITLE_CANONICALIZATION : List (String × String) :=
  [ ("chief executive officer", "CEO"),
    ("chief technology officer", "CTO"),
    ("chief operating officer", "COO"),
    ("chief financial officer", "CFO"),
    ("chief marketing officer", "CMO"),
    ("chief people officer", "Chief People Officer"),
    ("chief product officer", "Chief Product Officer"),
    ("chief revenue officer", "CRO"),
    ("chief strategy officer", "CSO"),
    ("chief data officer", "Chief Data Officer"),
    ("chief information officer", "Chief Information Officer"),
    ("cofounder", "Co-Founder"),
    ("co founder", "Co-Founder"),
    ("co-founder", "Co-Founder") ]

/-- Python `str.strip()` (whitespace at both ends). -/
def stripChars (s : List Char) : List Char :=
  ((s.dropWhile Char.isWhitespace).reverse.dropWhile Char.isWhitespace).reverse

/-- `is_leadership_title` from leadership.py. -/
def is_leadership_title (title : String) : Bool :=
  LEADERSHIP_PATTERNS.any (fun p => (mSearch p title.data).isSome)

/-- `extract_leadership_title` from leadership.py: the first pattern's
leftmost match, with original casing (`match.group(0)`). -/
def extract_leadership_title (title : String) : Option String :=
  LEADERSHIP_PATTERNS.findSome? (fun p =>
    (mSearch p title.data).map (fun r =>
      (⟨sliceChars title.data r.1 r.2⟩ : String)))

/-- `normalize_title` from leadership.py. -/
def normalize_title (title : String) : String :=
  let title_lower : String := ⟨stripChars (lowerChars title.data)⟩
  match TITLE_CANONICALIZATION.lookup title_lower with
  | some canonical => canonical
  | none =>
    match extract_leadership_title title with
    | some extracted =>
      match TITLE_CANONICALIZATION.lookup (⟨lowerChars extracted.data⟩ : String) with
      | some canonical => canonical
      | none => extracted
    | none => title

-- ---------------------------------------------------------------------------
-- Leadership change detection (services/leadership.py)
-- ---------------------------------------------------------------------------

/-- `LeadershipChangeType` from models.py. -/
inductive LeadershipChangeType where
  | ceo_departure
  | founder_departure
  | cto_departure
  | coo_departure
  | executive_departure
  | new_ceo
  | new_leadership
  | no_change
deriving DecidableEq, Repr

/-- `CompanyLeadership` from models.py, restricted to the fields read by
`detect_leadership_changes` (`company_id`, `discovery_method`, timestamps and
the stored-record bookkeeping fields are not consulted by the diff). -/
structure CompanyLeadership where
  person_name : String
  title : String
  linkedin_profile_url : Option String
deriving DecidableEq, Repr

/-- A current-roster candidate record: the `dict[str, str]` rows produced by
the extractors, read through `.get(key, "")` (absent keys behave as ""). -/
structure CandidateRecord where
  name : String := ""
  title : String := ""
  profile_url : String := ""
deriving DecidableEq, Repr

/-- `LeadershipChange` from models.py. -/
structure LeadershipChange where
  change_type : LeadershipChangeType
  person_name : String
  title : String
  severity : String := "notable"
  confidence : ℚ := 0.8
  significance_classification : Option SignificanceClassification := none
  significance_sentiment : Option SignificanceSentiment := none
  significance_confidence : Option ℚ := none
deriving DecidableEq, Repr

/-- Python dict insertion: replace the value in place when the key exists
(keeping the original key position), else append. -/
def dictInsert {α : Type} (d : List (String × α)) (k : String) (v : α) :
    List (String × α) :=
  if d.any (fun e => e.1 = k) then
    d.map (fun e => if e.1 = k then (k, v) else e)
  else d ++ [(k, v)]

/-- Key membership in a modelled dict. -/
def hasKey {α : Type} (d : List (String × α)) (k : String) : Bool :=
  d.any (fun e => e.1 = k)

/-- `prev_urls` in `detect_leadership_changes` (line 356): the
identifier-to-record map over previous records with a truthy profile URL. -/
def prev_urls (previous : List CompanyLeadership) :
    List (String × CompanyLeadership) :=
  previous.foldl (fun d l =>
    match l.linkedin_profile_url with
    | some u => if u ≠ "" then dictInsert d u l else d
    | none => d) []

/-- `curr_urls` in `detect_leadership_changes` (line 357). -/
def curr_urls (current : List CandidateRecord) :
    List (String × CandidateRecord) :=
  current.foldl (fun d r =>
    if r.profile_url ≠ "" then dictInsert d r.profile_url r else d) []

/-- `normalize_title(title).upper()` as used by `_departure_type`. -/
def upper_normalized (title : String) : String :=
  ⟨upperChars (normalize_title title).data⟩

/-- `_departure_type` from leadership.py (lines 414-425). -/
def departure_type (title : String) : LeadershipChangeType :=
  if upper_normalized title = "CEO" then .ceo_departure
  else if upper_normalized title = "FOUNDER" ∨
      upper_normalized title = "CO-FOUNDER" then .founder_departure
  else if upper_normalized title = "CTO" then .cto_departure
  else if upper_normalized title = "COO" then .coo_departure
  else .executive_departure

/-- The departure record built for one departing leader
(lines 360-379 of leadership.py). -/
def mkDeparture (leader : CompanyLeadership) : LeadershipChange :=
  let change_type := departure_type leader.title
  let severity :=
    if change_type = LeadershipChangeType.ceo_departure ∨
        change_type = LeadershipChangeType.founder_departure ∨
        change_type = LeadershipChangeType.cto_departure ∨
        change_type = LeadershipChangeType.coo_departure then "critical"
    else "notable"
  { change_type := change_type
    person_name := leader.person_name
    title := leader.title
    severity := severity
    confidence := if severity = "critical" then 0.95 else 0.80
    significance_classification :=
      if severity = "critical" then some .significant else none
    significance_sentiment :=
      if severity = "critical" then some .negative else none
    significance_confidence :=
      if severity = "critical" then some 0.95 else none }

/-- The arrival record built for one new person
(lines 382-399 of leadership.py). -/
def mkArrival (person : CandidateRecord) : LeadershipChange :=
  let title_norm := normalize_title person.title
  let change_type :=
    if title_norm = "CEO" then LeadershipChangeType.new_ceo
    else LeadershipChangeType.new_leadership
  { change_type := change_type
    person_name := person.name
    title := person.title
    severity := "notable"
    confidence := 0.80 }

/-- The departures loop of `detect_leadership_changes` (lines 359-379): one
departure per previous-map entry whose identifier is absent from the current
map, in map order. -/
def leadership_departures (previous : List CompanyLeadership)
    (current : List CandidateRecord) : List LeadershipChange :=
  ((prev_urls previous).filter
    (fun e => !(hasKey (curr_urls current) e.1))).map (fun e => mkDeparture e.2)

/-- The arrivals loop of `detect_leadership_changes` (lines 381-399). -/
def leadership_arrivals (previous : List CompanyLeadership)
    (current : List CandidateRecord) : List LeadershipChange :=
  ((curr_urls current).filter
    (fun e => !(hasKey (prev_urls previous) e.1))).map (fun e => mkArrival e.2)

/-- The `no_change` record (lines 402-409 of leadership.py). -/
def no_change_record : LeadershipChange :=
  { change_type := .no_change
    person_name := ""
    title := ""
    severity := "insignificant"
    confidence := 0.75 }

/-- `detect_leadership_changes` from leadership.py (lines 346-411). -/
def detect_leadership_changes (previous : List CompanyLeadership)
    (current : List CandidateRecord) : List LeadershipChange :=
  let changes :=
    leadership_departures previous current ++
      leadership_arrivals previous current
  if changes = [] then [no_change_record] else changes

/-- The five departure change types. -/
def isDepartureType : LeadershipChangeType → Bool
  | .ceo_departure | .founder_departure | .cto_departure
  | .coo_departure | .executive_departure => true
  | _ => false

/-- The two arrival change types. -/
def isArrivalType : LeadershipChangeType → Bool
  | .new_ceo | .new_leadership => true
  | _ => false

/-- `_departure_type` always yields a departure change type. -/
theorem departure_type_isDeparture (title : String) :
    isDepartureType (departure_type title) = true := by
  unfold departure_type
  split_ifs <;> rfl

/-- Every record of the departures loop carries a departure change type. -/
theorem leadership_departures_types (previous : List CompanyLeadership)
    (current : List CandidateRecord) :
    ∀ c ∈ leadership_departures previous current,
      isDepartureType c.change_type = true := by
  intro c hc
  simp only [leadership_departures, List.mem_map] at hc
  obtain ⟨e, -, rfl⟩ := hc
  exact departure_type_isDeparture e.2.title

/-- Every record of the arrivals loop carries an arrival change type. -/
theorem leadership_arrivals_types (previous : List CompanyLeadership)
    (current : List CandidateRecord) :
    ∀ c ∈ leadership_arrivals previous current,
      isArrivalType c.change_type = true := by
  intro c hc
  simp only [leadership_arrivals, List.mem_map] at hc
  obtain ⟨e, -, rfl⟩ := hc
  simp only [mkArrival]
  split_ifs <;> rfl

/-- Arrival change types are not departure change types. -/
theorem arrival_not_departure (t : LeadershipChangeType)
    (h : isArrivalType t = true) : isDepartureType t = false := by
  cases t <;> first | rfl | exact absurd h (by simp [isArrivalType])

/-- Departure change types are not arrival change types. -/
theorem departure_not_arrival (t : LeadershipChangeType)
    (h : isDepartureType t = true) : isArrivalType t = false := by
  cases t <;> first | rfl | exact absurd h (by simp [isDepartureType])

/-- Claim C5: the departure records of `detect_leadership_changes` are
exactly one `mkDeparture` per previous-roster map entry whose stable
identifier (LinkedIn profile URL) is absent from the current roster, and
`mkDeparture` realises the claimed subtype / severity / confidence mapping:
the subtype is derived from the departing person's normalized title
(CEO → `ceo_departure`, Founder or Co-Founder → `founder_departure`,
CTO → `cto_departure`, COO → `coo_departure`, anything else →
`executive_departure`), severity is `critical` with confidence 0.95 for the
first four subtypes and `notable` with confidence 0.80 for
`executive_departure`. -/
theorem detect_leadership_changes_departures_spec
    (previous : List CompanyLeadership) (current : List CandidateRecord) :
    ((detect_leadership_changes previous current).filter
        (fun c => isDepartureType c.change_type) =
      leadership_departures previous current) ∧
    (∀ leader : CompanyLeadership,
      (mkDeparture leader).person_name = leader.person_name ∧
      (mkDeparture leader).title = leader.title ∧
      (mkDeparture leader).change_type = departure_type leader.title ∧
      (departure_type leader.title = LeadershipChangeType.ceo_departure ↔
        upper_normalized leader.title = "CEO") ∧
      (departure_type leader.title = LeadershipChangeType.founder_departure ↔
        (upper_normalized leader.title = "FOUNDER" ∨
         upper_normalized leader.title = "CO-FOUNDER")) ∧
      (departure_type leader.title = LeadershipChangeType.cto_departure ↔
        (¬ upper_normalized leader.title = "CEO") ∧
        (¬ (upper_normalized leader.title = "FOUNDER" ∨
            upper_normalized leader.title = "CO-FOUNDER")) ∧
          upper_normalized leader.title = "CTO") ∧
      (departure_type leader.title = LeadershipChangeType.coo_departure ↔
        (¬ upper_normalized leader.title = "CEO") ∧
        (¬ (upper_normalized leader.title = "FOUNDER" ∨
            upper_normalized leader.title = "CO-FOUNDER")) ∧
        (¬ upper_normalized leader.title = "CTO") ∧
          upper_normalized leader.title = "COO") ∧
      ((mkDeparture leader).severity =
        if departure_type leader.title = LeadershipChangeType.ceo_departure ∨
            departure_type leader.title = LeadershipChangeType.founder_departure ∨
            departure_type leader.title = LeadershipChangeType.cto_departure ∨
            departure_type leader.title = LeadershipChangeType.coo_departure
        then "critical" else "notable") ∧
      ((mkDeparture leader).confidence =
        if (mkDeparture leader).severity = "critical" then 0.95 else 0.80)) := by
  constructor
  · unfold detect_leadership_changes
    by_cases hch : leadership_departures previous current ++
        leadership_arrivals previous current = []
    · rw [if_pos hch]
      have hd := (List.append_eq_nil.mp hch).1
      rw [hd]
      rfl
    · rw [if_neg hch, List.filter_append,
        List.filter_eq_self.mpr (leadership_departures_types previous current),
        List.filter_eq_nil_iff.mpr (fun a ha => by
          rw [arrival_not_departure a.change_type
            (leadership_arrivals_types previous current a ha)]
          exact Bool.false_ne_true),
        List.append_nil]
  · intro leader
    refine ⟨rfl, rfl, rfl, ?_, ?_, ?_, ?_, rfl, rfl⟩ <;>
      (unfold departure_type; split_ifs <;> simp_all)

/-- Claim C6: `detect_leadership_changes` returns the single `no_change`
record (severity `insignificant`, confidence 0.75) exactly when the roster
diff yields zero departures and zero arrivals, and a `no_change` record never
shares an output with a departure or arrival record.  The function is total,
so degenerate inputs (for example two empty rosters, covered by the witness)
produce this defined result rather than an error. -/
theorem detect_leadership_changes_no_change_spec
    (previous : List CompanyLeadership) (current : List CandidateRecord) :
    (detect_leadership_changes previous current = [no_change_record] ↔
      (leadership_departures previous current = [] ∧
       leadership_arrivals previous current = [])) ∧
    (∀ c ∈ detect_leadership_changes previous current,
      c.change_type = LeadershipChangeType.no_change →
      detect_leadership_changes previous current = [no_change_record]) ∧
    no_change_record.severity = "insignificant" ∧
    no_change_record.confidence = 0.75 := by
  refine ⟨?_, ?_, rfl, rfl⟩
  · unfold detect_leadership_changes
    by_cases hch : leadership_departures previous current ++
        leadership_arrivals previous current = []
    · rw [if_pos hch]
      exact ⟨fun _ => List.append_eq_nil.mp hch, fun _ => rfl⟩
    · rw [if_neg hch]
      constructor
      · intro heq
        have hmem : no_change_record ∈ leadership_departures previous current ++
            leadership_arrivals previous current := by
          rw [heq]; exact List.mem_singleton_self _
        rcases List.mem_append.mp hmem with hl | hr
        · exact absurd (leadership_departures_types previous current _ hl)
            (by simp [no_change_record, isDepartureType])
        · exact absurd (leadership_arrivals_types previous current _ hr)
            (by simp [no_change_record, isArrivalType])
      · rintro ⟨hd, ha⟩
        exact absurd (by rw [hd, ha]; rfl) hch
  · intro c hc hnc
    unfold detect_leadership_changes at hc ⊢
    by_cases hch : leadership_departures previous current ++
        leadership_arrivals previous current = []
    · rw [if_pos hch]
    · rw [if_neg hch] at hc
      exfalso
      rcases List.mem_append.mp hc with hl | hr
      · have := leadership_departures_types previous current c hl
        rw [hnc] at this
        exact absurd this (by simp [isDepartureType])
      · have := leadership_arrivals_types previous current c hr
        rw [hnc] at this
        exact absurd this (by simp [isArrivalType])

/-- Witness for C6 at the degenerate concrete input of two empty rosters
(discharging the membership and change-type hypotheses of the second
conjunct). -/
theorem detect_leadership_changes_no_change_spec_witness :
    detect_leadership_changes [] [] = [no_change_record] :=
  (detect_leadership_changes_no_change_spec [] []).2.1 no_change_record
    (by with_unfolding_all decide) rfl

/-- Claim C10: in the output of `detect_leadership_changes`, every departure
record appears before every arrival record: no earlier element is an arrival
while a later element is a departure. -/
theorem detect_leadership_changes_departures_first
    (previous : List CompanyLeadership) (current : List CandidateRecord) :
    (detect_leadership_changes previous current).Pairwise
      (fun x y => ¬(isArrivalType x.change_type = true ∧
                    isDepartureType y.change_type = true)) := by
  unfold detect_leadership_changes
  by_cases hch : leadership_departures previous current ++
      leadership_arrivals previous current = []
  · rw [if_pos hch]
    exact List.pairwise_singleton _ _
  · rw [if_neg hch]
    refine List.pairwise_append.mpr ⟨?_, ?_, ?_⟩
    · refine List.pairwise_of_forall_mem_list (fun a ha b hb => ?_)
      rintro ⟨haarr, -⟩
      have := arrival_not_departure a.change_type haarr
      have hdep := leadership_departures_types previous current a ha
      rw [departure_not_arrival a.change_type hdep] at haarr
      exact Bool.false_ne_true haarr
    · refine List.pairwise_of_forall_mem_list (fun a ha b hb => ?_)
      rintro ⟨-, hbdep⟩
      have harr := leadership_arrivals_types previous current b hb
      rw [arrival_not_departure b.change_type harr] at hbdep
      exact Bool.false_ne_true hbdep
    · intro a ha b hb
      rintro ⟨-, hbdep⟩
      have harr := leadership_arrivals_types previous current b hb
      rw [arrival_not_departure b.change_type harr] at hbdep
      exact Bool.false_ne_true hbdep

-- ---------------------------------------------------------------------------
-- News article relevance scoring (services/news_monitoring.py)
-- ---------------------------------------------------------------------------

/-- A candidate article record: the search-result `dict` read through
`.get(key, "")`.  The code reads only `snippet` and `url`; an image-hash
entry carried by the record (the "comparable article image hash" of the
specification) is modelled explicitly and is never read by the scorer. -/
structure ArticleRecord where
  title : String := ""
  snippet : String := ""
  url : String := ""
  image_hash : Option String := none
deriving DecidableEq, Repr

/-- The relevant fragment of `Config` for `_verify_article`. -/
structure NewsConfig where
  llm_enabled : Bool
deriving DecidableEq, Repr

/-- `VERIFICATION_WEIGHTS` from news_monitoring.py (lines 31-39). -/
def VERIFICATION_WEIGHTS : List (String × ℚ) :=
  [("logo", 0.30), ("domain", 0.30), ("context", 0.15), ("llm", 0.25)]

/-- Weight lookup in `VERIFICATION_WEIGHTS`. -/
def weightOf (k : String) : ℚ := (VERIFICATION_WEIGHTS.lookup k).getD 0

/-- `VERIFICATION_THRESHOLD` from news_monitoring.py (line 39). -/
def VERIFICATION_THRESHOLD : ℚ := 0.40

/-- `urlparse(url).netloc`: the authority component, present only after a
`//`; a leading `scheme:` prefix is dropped first. -/
def netlocOf (url : String) : String :=
  let s := url.data
  let isSchemeChar := fun (c : Char) =>
    c.isAlphanum || c = '+' || c = '-' || c = '.'
  let rest :=
    match strFind s [':'] 0 with
    | some i =>
      let scheme := sliceChars s 0 i
      if !scheme.isEmpty && scheme.all isSchemeChar &&
          (match scheme.head? with | some c => c.isAlpha | none => false) then
        s.drop (i + 1)
      else s
    | none => s
  if ['/', '/'].isPrefixOf rest then
    ⟨(rest.drop 2).takeWhile (fun c => c ≠ '/' ∧ c ≠ '?' ∧ c ≠ '#')⟩
  else ""

/-- Python `str.removeprefix("www.")`. -/
def removeWwwPrefix (s : String) : String :=
  if "www.".data.isPrefixOf s.data then ⟨s.data.drop 4⟩ else s

/-- Word boundary at position `i` of `text` (between a `\w` character and a
non-`\w` character or the text edge), as used by the compiled pattern
`\b<escaped domain>\b`. -/
def boundaryAt (text : List Char) (i : Nat) : Bool :=
  let w := fun (j : Nat) =>
    match text.get? j with
    | some c => isWordChar c
    | none => false
  let left := if i = 0 then false else w (i - 1)
  left ≠ w i

/-- `re.search` of the word-bounded literal domain (the domain is passed
through `re.escape`, so it matches literally). -/
def wordBoundedSearch (text dom : List Char) : Bool :=
  (List.range (text.length + 1)).any (fun i =>
    dom.isPrefixOf (text.drop i) && boundaryAt text i &&
      boundaryAt text (i + dom.length))

/-- Signal 1 of `_verify_article` (lines 119-127): the company's registrable
domain (www-stripped) appears word-bounded in snippet + " " + URL. -/
def domainSignal (article : ArticleRecord) (homepage_url : Option String) :
    Bool :=
  match homepage_url with
  | none => false
  | some hu =>
    let company_domain := removeWwwPrefix (netlocOf hu)
    if company_domain ≠ "" then
      wordBoundedSearch (article.snippet.data ++ " ".data ++ article.url.data)
        company_domain.data
    else false

/-- `business_context_words` from `_verify_article` (lines 131-135). -/
def business_context_words : List String :=
  ["announced", "raised", "launched", "acquired", "partnered",
   "reported", "expanded", "hired", "funding", "revenue",
   "growth", "product", "series", "round"]

/-- Signal 2 of `_verify_article` (lines 129-138): company name appears
case-insensitively in the snippet together with a business-context word. -/
def contextSignal (article : ArticleRecord) (company_name : String) : Bool :=
  if containsSub (lowerChars article.snippet.data)
      (lowerChars company_name.data) then
    business_context_words.any (fun w =>
      containsSub (lowerChars article.snippet.data) w.data)
  else false

/-- `_verify_article` from news_monitoring.py (lines 102-156).  The LLM
capability is external; its verdict (including the fail-open `False` on any
exception) is passed in as `llm_verdict`.  The logo branch (lines 140-144) is
a placeholder: it reads neither hash and adds nothing. -/
def verify_article (article : ArticleRecord) (company_name : String)
    (homepage_url : Option String) (logo_hash : Option String)
    (config : NewsConfig) (llm_verdict : Bool) : ℚ × List String :=
  let confidence0 : ℚ := 0.0
  let evidence0 : List String := []
  -- Signal 1: Domain match (0.30 weight)
  let step1 :=
    if domainSignal article homepage_url then
      (confidence0 + weightOf "domain", evidence0 ++ ["domain_match"])
    else (confidence0, evidence0)
  -- Signal 2: Name in business context (0.15 weight)
  let step2 :=
    if contextSignal article company_name then
      (step1.1 + weightOf "context", step1.2 ++ ["name_context"])
    else step1
  -- Signal 3: Logo match (0.30 weight) - placeholder, adds nothing
  let step3 :=
    match logo_hash with
    | some _ => step2
    | none => step2
  -- Signal 4: LLM verification (0.25 weight) - optional, fail-open
  let step4 :=
    if config.llm_enabled then
      if llm_verdict then
        (step3.1 + weightOf "llm", step3.2 ++ ["llm_verification"])
      else step3
    else step3
  step4

/-- Weight of the domain signal. -/
theorem weightOf_domain : weightOf "domain" = 0.30 := by
  with_unfolding_all decide

/-- Weight of the name-in-business-context signal. -/
theorem weightOf_context : weightOf "context" = 0.15 := by
  with_unfolding_all decide

/-- Claim C7: with the LLM capability disabled (and the logo branch
contributing nothing), a domain match alone yields confidence exactly
0.0 + 0.30, which is at least 0.30 and strictly below the acceptance
threshold 0.40, while a domain match together with a name-in-business-context
match yields 0.45, at least the threshold. -/
theorem verify_article_relevance_thresholds
    (article : ArticleRecord) (company_name : String)
    (homepage_url : Option String) (logo_hash : Option String)
    (config : NewsConfig) (llm_verdict : Bool)
    (hllm : config.llm_enabled = false) :
    (domainSignal article homepage_url = true →
      contextSignal article company_name = false →
      (0.30 ≤ (verify_article article company_name homepage_url logo_hash
          config llm_verdict).1 ∧
       (verify_article article company_name homepage_url logo_hash
          config llm_verdict).1 < VERIFICATION_THRESHOLD)) ∧
    (domainSignal article homepage_url = true →
      contextSignal article company_name = true →
      VERIFICATION_THRESHOLD ≤ (verify_article article company_name
        homepage_url logo_hash config llm_verdict).1) := by
  constructor
  · intro hd hc
    have hv : (verify_article article company_name homepage_url logo_hash
        config llm_verdict).1 = 0.0 + weightOf "domain" := by
      simp only [verify_article, hd, hc, hllm, if_true,
        Bool.false_eq_true, if_false]
      cases logo_hash <;> rfl
    rw [hv, weightOf_domain]
    unfold VERIFICATION_THRESHOLD
    norm_num
  · intro hd hc
    have hv : (verify_article article company_name homepage_url logo_hash
        config llm_verdict).1 =
        0.0 + weightOf "domain" + weightOf "context" := by
      simp only [verify_article, hd, hc, hllm, if_true,
        Bool.false_eq_true, if_false]
      cases logo_hash <;> rfl
    rw [hv, weightOf_domain, weightOf_context]
    unfold VERIFICATION_THRESHOLD
    norm_num

/-- Witness for C7 at two concrete articles: one with only a domain match
("acme.com" word-bounded in the snippet, company name "Zeta" absent), one
with a domain match plus a name-in-business-context match. -/
theorem verify_article_relevance_thresholds_witness :
    (0.30 ≤ (verify_article
        { snippet := "About acme.com today", url := "" } "Zeta"
        (some "https://acme.com") none { llm_enabled := false } false).1 ∧
     (verify_article
        { snippet := "About acme.com today", url := "" } "Zeta"
        (some "https://acme.com") none { llm_enabled := false } false).1 <
       VERIFICATION_THRESHOLD) ∧
    VERIFICATION_THRESHOLD ≤ (verify_article
        { snippet := "Acme announced acme.com launch", url := "" } "Acme"
        (some "https://acme.com") none { llm_enabled := false } false).1 :=
  ⟨(verify_article_relevance_thresholds _ "Zeta" _ none _ false rfl).1
      (by decide) (by decide),
   (verify_article_relevance_thresholds _ "Acme" _ none _ false rfl).2
      (by decide) (by decide)⟩

/-- Claim C8 (counterexample): the claim asserts the logo signal adds exactly
weight 0.30 when both a company logo hash and a comparable article image hash
are supplied by the caller.  Here both hashes are supplied (equal hashes
"h1") and no other signal fires, yet the returned confidence is 0 rather
than 0.30: the logo comparison is an unimplemented placeholder. -/
theorem logo_weight_counterexample :
    (({ snippet := "", url := "", image_hash := some "h1" } :
        ArticleRecord).image_hash = some "h1") ∧
    (verify_article { snippet := "", url := "", image_hash := some "h1" }
        "Acme" none (some "h1") { llm_enabled := false } false).1 = 0 ∧
    ¬ ((verify_article { snippet := "", url := "", image_hash := some "h1" }
        "Acme" none (some "h1") { llm_enabled := false } false).1 = 0.30) :=
  ⟨rfl, by with_unfolding_all decide, by with_unfolding_all decide⟩

/-- Claim C8 (amended): the logo-match branch of `_verify_article` is a
placeholder that contributes exactly zero: the relevance confidence is
independent of the supplied company logo hash and of any article image hash
carried by the record.  In particular the absence of either hash never
reduces the score (and their presence never raises it). -/
theorem logo_weight_amended (t s u : String) (img₁ img₂ : Option String)
    (company_name : String) (homepage_url : Option String)
    (h₁ h₂ : Option String) (config : NewsConfig) (llm_verdict : Bool) :
    (verify_article { title := t, snippet := s, url := u, image_hash := img₁ }
        company_name homepage_url h₁ config llm_verdict).1 =
    (verify_article { title := t, snippet := s, url := u, image_hash := img₂ }
        company_name homepage_url h₂ config llm_verdict).1 := by
  cases h₁ <;> cases h₂ <;> rfl

-- ---------------------------------------------------------------------------
-- difflib embedding (Python stdlib, as used by _extract_diff_lines in
-- services/change_detection.py).  Sequences are lists of lines; a line is a
-- list of characters.  `SequenceMatcher(None, a, b)`: no junk predicate, so
-- `bjunk` stays empty (autojunk only purges popular elements from `b2j`).
-- ---------------------------------------------------------------------------

/-- Python slice `l[a:b]` for arbitrary element types. -/
def sliceList {α : Type} (l : List α) (a b : Nat) : List α := (l.take b).drop a

/-- Python `str.splitlines(keepends=True)` for the line terminators
`\r\n`, `\r` and `\n` (the terminators occurring in scraped text content;
Python additionally splits on some rare control characters). -/
def splitlinesAux : List Char → List Char → List (List Char)
  | [], acc => if acc = [] then [] else [acc.reverse]
  | '\r' :: '\n' :: rest, acc => (acc.reverse ++ ['\r', '\n']) :: splitlinesAux rest []
  | '\r' :: rest, acc => (acc.reverse ++ ['\r']) :: splitlinesAux rest []
  | '\n' :: rest, acc => (acc.reverse ++ ['\n']) :: splitlinesAux rest []
  | c :: rest, acc => splitlinesAux rest (c :: acc)

/-- Python `str.splitlines(keepends=True)`. -/
def splitlines (s : List Char) : List (List Char) := splitlinesAux s []

/-- Add one element occurrence to the `b2j` map (`b2j.setdefault(elt, [])
.append(i)`): indices accumulate in ascending order. -/
def b2jAdd (d : List (List Char × List Nat)) (elt : List Char) (j : Nat) :
    List (List Char × List Nat) :=
  if d.any (fun e => e.1 = elt) then
    d.map (fun e => if e.1 = elt then (e.1, e.2 ++ [j]) else e)
  else d ++ [(elt, [j])]

/-- `__chain_b` of `SequenceMatcher`: build `b2j`, then (no junk predicate)
purge popular elements when `autojunk` applies (`len(b) >= 200`, occurrence
count above `n // 100 + 1`). -/
def chainB (b : List (List Char)) : List (List Char × List Nat) :=
  let b2j := b.enum.foldl (fun d p => b2jAdd d p.2 p.1) []
  let n := b.length
  if 200 ≤ n then
    let ntest := n / 100 + 1
    b2j.filter (fun e => !(ntest < e.2.length))
  else b2j

/-- `b2j.get(elt, [])`. -/
def b2jGet (d : List (List Char × List Nat)) (elt : List Char) : List Nat :=
  match d.find? (fun e => e.1 = elt) with
  | some e => e.2
  | none => []

/-- `j2len.get(k, 0)` over the inner association map. -/
def j2lenGet (d : List (Nat × Nat)) (k : Nat) : Nat :=
  match d.find? (fun e => e.1 = k) with
  | some e => e.2
  | none => 0

/-- `newj2len[j] = k` assignment. -/
def j2lenSet (d : List (Nat × Nat)) (k v : Nat) : List (Nat × Nat) :=
  if d.any (fun e => e.1 = k) then
    d.map (fun e => if e.1 = k then (k, v) else e)
  else d ++ [(k, v)]

/-- The inner `for j in b2j.get(a[i], nothing)` loop of
`find_longest_match`, with its `continue` (j below `blo`) and `break`
(j at or above `bhi`; the index lists are ascending). -/
def flmInner (i blo bhi : Nat) (j2len : List (Nat × Nat)) :
    List Nat → List (Nat × Nat) → (Nat × Nat × Nat) →
    (List (Nat × Nat) × (Nat × Nat × Nat))
  | [], newj2len, best => (newj2len, best)
  | j :: js, newj2len, best =>
    if j < blo then flmInner i blo bhi j2len js newj2len best
    else if bhi ≤ j then (newj2len, best)
    else
      -- `j2len.get(j-1, 0)`: for j = 0 Python looks up -1, never a key.
      let k := (if j = 0 then 0 else j2lenGet j2len (j - 1)) + 1
      let newj2len := j2lenSet newj2len j k
      -- `i-k+1` and `j-k+1` (k is at most i+1 and j+1, so written with the
      -- addition first to match Python's signed arithmetic).
      let best := if best.2.2 < k then (i + 1 - k, j + 1 - k, k) else best
      flmInner i blo bhi j2len js newj2len best

/-- The main `for i in range(alo, ahi)` scan of `find_longest_match`. -/
def flmScan (a : List (List Char)) (b2j : List (List Char × List Nat))
    (alo ahi blo bhi : Nat) : Nat × Nat × Nat :=
  ((List.range' alo (ahi - alo)).foldl
    (fun (st : List (Nat × Nat) × (Nat × Nat × Nat)) i =>
      flmInner i blo bhi st.1 (b2jGet b2j (a.getD i [])) [] st.2)
    ([], (alo, blo, 0))).2

/-- The first extension loop of `find_longest_match`: extend the best block
leftwards over equal non-junk elements (the junk set is empty here, so the
junk extension loops below never fire; they are kept for shape fidelity).
The fuel bounds the iterations; each step decreases `besti`. -/
def flmExtendLeft (a b : List (List Char)) (junk : List Char → Bool)
    (alo blo : Nat) : Nat → (Nat × Nat × Nat) → (Nat × Nat × Nat)
  | 0, st => st
  | fuel + 1, (besti, bestj, bestsize) =>
    if alo < besti ∧ blo < bestj ∧
        junk (b.getD (bestj - 1) []) = false ∧
        a.getD (besti - 1) [] = b.getD (bestj - 1) [] then
      flmExtendLeft a b junk alo blo fuel (besti - 1, bestj - 1, bestsize + 1)
    else (besti, bestj, bestsize)

/-- The second extension loop: extend rightwards over equal non-junk
elements. -/
def flmExtendRight (a b : List (List Char)) (junk : List Char → Bool)
    (ahi bhi : Nat) : Nat → (Nat × Nat × Nat) → (Nat × Nat × Nat)
  | 0, st => st
  | fuel + 1, (besti, bestj, bestsize) =>
    if besti + bestsize < ahi ∧ bestj + bestsize < bhi ∧
        junk (b.getD (bestj + bestsize) []) = false ∧
        a.getD (besti + bestsize) [] = b.getD (bestj + bestsize) [] then
      flmExtendRight a b junk ahi bhi fuel (besti, bestj, bestsize + 1)
    else (besti, bestj, bestsize)

/-- The third extension loop: extend leftwards over equal junk elements. -/
def flmExtendLeftJunk (a b : List (List Char)) (junk : List Char → Bool)
    (alo blo : Nat) : Nat → (Nat × Nat × Nat) → (Nat × Nat × Nat)
  | 0, st => st
  | fuel + 1, (besti, bestj, bestsize) =>
    if alo < besti ∧ blo < bestj ∧
        junk (b.getD (bestj - 1) []) = true ∧
        a.getD (besti - 1) [] = b.getD (bestj - 1) [] then
      flmExtendLeftJunk a b junk alo blo fuel
        (besti - 1, bestj - 1, bestsize + 1)
    else (besti, bestj, bestsize)

/-- The fourth extension loop: extend rightwards over equal junk elements. -/
def flmExtendRightJunk (a b : List (List Char)) (junk : List Char → Bool)
    (ahi bhi : Nat) : Nat → (Nat × Nat × Nat) → (Nat × Nat × Nat)
  | 0, st => st
  | fuel + 1, (besti, bestj, bestsize) =>
    if besti + bestsize < ahi ∧ bestj + bestsize < bhi ∧
        junk (b.getD (bestj + bestsize) []) = true ∧
        a.getD (besti + bestsize) [] = b.getD (bestj + bestsize) [] then
      flmExtendRightJunk a b junk ahi bhi fuel (besti, bestj, bestsize + 1)
    else (besti, bestj, bestsize)

/-- `SequenceMatcher.find_longest_match` (junk predicate absent, so `bjunk`
is empty and `isbjunk` is constantly false). -/
def find_longest_match (a b : List (List Char))
    (b2j : List (List Char × List Nat)) (alo ahi blo bhi : Nat) :
    Nat × Nat × Nat :=
  let isbjunk := fun (_ : List Char) => false
  let fuel := a.length + b.length + 1
  let best := flmScan a b2j alo ahi blo bhi
  let best := flmExtendLeft a b isbjunk alo blo fuel best
  let best := flmExtendRight a b isbjunk ahi bhi fuel best
  let best := flmExtendLeftJunk a b isbjunk alo blo fuel best
  let best := flmExtendRightJunk a b isbjunk ahi bhi fuel best
  best

/-- The queue-driven divide-and-conquer of `get_matching_blocks`, as a
recursion (the queue order only permutes the pre-sort block list, and the
blocks are later sorted; block index ranges are pairwise disjoint, so the
sorted result is identical).  The fuel bounds the recursion depth: every
recursive call strictly shrinks `(ahi - alo) + (bhi - blo)`. -/
def matchingBlocksAux (a b : List (List Char))
    (b2j : List (List Char × List Nat)) :
    Nat → Nat × Nat × Nat × Nat → List (Nat × Nat × Nat)
  | 0, _ => []
  | fuel + 1, (alo, ahi, blo, bhi) =>
    let r := find_longest_match a b b2j alo ahi blo bhi
    let i := r.1
    let j := r.2.1
    let k := r.2.2
    if k ≠ 0 then
      (i, j, k) ::
        ((if alo < i ∧ blo < j then
            matchingBlocksAux a b b2j fuel (alo, i, blo, j)
          else []) ++
         (if i + k < ahi ∧ j + k < bhi then
            matchingBlocksAux a b b2j fuel (i + k, ahi, j + k, bhi)
          else []))
    else []

/-- Lexicographic order on block triples (models Python tuple comparison in
`sorted`; the first components of distinct blocks are distinct, so the
sorted list is unique). -/
def tripleLe (x y : Nat × Nat × Nat) : Prop :=
  x.1 < y.1 ∨ (x.1 = y.1 ∧ (x.2.1 < y.2.1 ∨ (x.2.1 = y.2.1 ∧ x.2.2 ≤ y.2.2)))

instance (x y : Nat × Nat × Nat) : Decidable (tripleLe x y) := by
  unfold tripleLe; infer_instance

/-- Insertion into a sorted block list. -/
def insertSorted (x : Nat × Nat × Nat) :
    List (Nat × Nat × Nat) → List (Nat × Nat × Nat)
  | [] => [x]
  | y :: ys => if tripleLe x y then x :: y :: ys else y :: insertSorted x ys

/-- `matching_blocks.sort()` (insertion sort; equal to Python's stable sort
because the keys are pairwise distinct). -/
def sortBlocks (l : List (Nat × Nat × Nat)) : List (Nat × Nat × Nat) :=
  l.foldr insertSorted []

/-- The adjacency coalescing pass at the end of `get_matching_blocks`. -/
def coalesceBlocks : Nat × Nat × Nat → List (Nat × Nat × Nat) →
    List (Nat × Nat × Nat)
  | (i1, j1, k1), [] => if k1 ≠ 0 then [(i1, j1, k1)] else []
  | (i1, j1, k1), (i2, j2, k2) :: rest =>
    if i1 + k1 = i2 ∧ j1 + k1 = j2 then coalesceBlocks (i1, j1, k1 + k2) rest
    else
      (if k1 ≠ 0 then [(i1, j1, k1)] else []) ++
        coalesceBlocks (i2, j2, k2) rest

/-- `SequenceMatcher.get_matching_blocks`. -/
def get_matching_blocks (a b : List (List Char)) : List (Nat × Nat × Nat) :=
  let b2j := chainB b
  let raw := matchingBlocksAux a b b2j (a.length + b.length + 1)
    (0, a.length, 0, b.length)
  coalesceBlocks (0, 0, 0) (sortBlocks raw) ++ [(a.length, b.length, 0)]

/-- An opcode of `SequenceMatcher.get_opcodes`: a tag among "replace",
"delete", "insert", "equal" and the two half-open index ranges. -/
structure OpcodeRec where
  tag : String
  i1 : Nat
  i2 : Nat
  j1 : Nat
  j2 : Nat
deriving DecidableEq, Repr

/-- `SequenceMatcher.get_opcodes`. -/
def get_opcodes (a b : List (List Char)) : List OpcodeRec :=
  ((get_matching_blocks a b).foldl
    (fun (st : (Nat × Nat) × List OpcodeRec) blk =>
      let i := st.1.1
      let j := st.1.2
      let ai := blk.1
      let bj := blk.2.1
      let size := blk.2.2
      let tag : String :=
        if i < ai ∧ j < bj then "replace"
        else if i < ai then "delete"
        else if j < bj then "insert"
        else ""
      let answer :=
        if tag ≠ "" then st.2 ++ [⟨tag, i, ai, j, bj⟩] else st.2
      let answer :=
        if size ≠ 0 then
          answer ++ [⟨"equal", ai, ai + size, bj, bj + size⟩]
        else answer
      ((ai + size, bj + size), answer))
    ((0, 0), [])).2

/-- The fixups at the head of `get_grouped_opcodes`: substitute a dummy
opcode list when empty, then trim a leading and a trailing `equal` opcode to
the context size `n = 3`. -/
def groupedCodesFixup (codes0 : List OpcodeRec) : List OpcodeRec :=
  let codes := if codes0 = [] then [(⟨"equal", 0, 1, 0, 1⟩ : OpcodeRec)] else codes0
  let codes :=
    match codes with
    | c :: rest =>
      if c.tag = "equal" then
        (⟨c.tag, max c.i1 (c.i2 - 3), c.i2, max c.j1 (c.j2 - 3), c.j2⟩ :
          OpcodeRec) :: rest
      else codes
    | [] => codes
  match codes.getLast? with
  | some c =>
    if c.tag = "equal" then
      codes.dropLast ++
        [(⟨c.tag, c.i1, min c.i2 (c.i1 + 3), c.j1, min c.j2 (c.j1 + 3)⟩ :
          OpcodeRec)]
    else codes
  | none => codes

/-- The grouping loop of `get_grouped_opcodes`: split around `equal` ranges
longer than `nn = n + n = 6`, trimming both sides to the context size.
Returns the emitted groups and the group under construction. -/
def groupedFold (codes : List OpcodeRec) :
    List (List OpcodeRec) × List OpcodeRec :=
  codes.foldl
    (fun (st : List (List OpcodeRec) × List OpcodeRec) c =>
      if c.tag = "equal" ∧ 6 < c.i2 - c.i1 then
        (st.1 ++ [st.2 ++
            [⟨c.tag, c.i1, min c.i2 (c.i1 + 3), c.j1, min c.j2 (c.j1 + 3)⟩]],
         [⟨c.tag, max c.i1 (c.i2 - 3), c.i2, max c.j1 (c.j2 - 3), c.j2⟩])
      else (st.1, st.2 ++ [c]))
    ([], [])

/-- `SequenceMatcher.get_grouped_opcodes` with the default context size
`n = 3`, returned as a list of groups (the trailing group is kept unless it
is a single `equal` opcode). -/
def get_grouped_opcodes (a b : List (List Char)) : List (List OpcodeRec) :=
  let st := groupedFold (groupedCodesFixup (get_opcodes a b))
  if st.2 ≠ [] ∧ ¬(st.2.length = 1 ∧
      (st.2.headD ⟨"", 0, 0, 0, 0⟩).tag = "equal") then
    st.1 ++ [st.2]
  else st.1

/-- Decimal digits of a natural number. -/
def natDigits (n : Nat) : List Char := Nat.toDigits 10 n

/-- `_format_range_unified` from difflib. -/
def format_range_unified (start stop : Nat) : List Char :=
  let beginning := start + 1
  let length := stop - start
  if length = 1 then natDigits beginning
  else
    let beginning := if length = 0 then beginning - 1 else beginning
    natDigits beginning ++ [','] ++ natDigits length

/-- `difflib.unified_diff(a, b, lineterm="")` with the default empty file
names and dates: the two header lines, then per group a `@@` hunk header and
the prefixed lines. -/
def unified_diff (a b : List (List Char)) : List (List Char) :=
  ((get_grouped_opcodes a b).foldl
    (fun (st : Bool × List (List Char)) group =>
      let out := if !st.1 then st.2 ++ ["--- ".data, "+++ ".data] else st.2
      let first := group.headD ⟨"", 0, 0, 0, 0⟩
      let last := group.getLastD ⟨"", 0, 0, 0, 0⟩
      let file1_range := format_range_unified first.i1 last.i2
      let file2_range := format_range_unified first.j1 last.j2
      let out := out ++
        ["@@ -".data ++ file1_range ++ " +".data ++ file2_range ++ " @@".data]
      let out := group.foldl
        (fun out c =>
          if c.tag = "equal" then
            out ++ (sliceList a c.i1 c.i2).map (fun line => ' ' :: line)
          else
            let out :=
              if c.tag = "replace" ∨ c.tag = "delete" then
                out ++ (sliceList a c.i1 c.i2).map (fun line => '-' :: line)
              else out
            if c.tag = "replace" ∨ c.tag = "insert" then
              out ++ (sliceList b c.j1 c.j2).map (fun line => '+' :: line)
            else out)
        out
      (true, out))
    (false, [])).2

/-- `_extract_diff_lines` from change_detection.py (lines 54-63): keep the
unified-diff lines that start with "+" but not with "+++", strip each and
join with newlines. -/
def extract_diff_lines (old_content new_content : List Char) : List Char :=
  let old_lines := splitlines old_content
  let new_lines := splitlines new_content
  let diff := unified_diff old_lines new_lines
  let added := (diff.filter (fun line =>
    "+".data.isPrefixOf line ∧ ¬ "+++".data.isPrefixOf line)).map
    (fun line => stripChars (line.drop 1))
  List.intercalate "\n".data added

/-- Claim C4 (evaluation at the failing input): the diff extractor is
claimed to return exactly the lines present in the new content that are not
aligned with the old content, trimmed and newline-joined.  For
`old = "a\n"`, `new = "++x\n"` the single new line is not aligned (the only
opcode is a replace covering it), so the claimed output is "++x"; the code
returns "" because the prefixed diff line "+++x\n" is caught by the
`startswith("+++")` header filter.  A regular replacement (`new = "b\n"`)
shows the intended behavior. -/
theorem extract_diff_lines_failing_input :
    get_opcodes (splitlines "a\n".data) (splitlines "++x\n".data) =
      [⟨"replace", 0, 1, 0, 1⟩] ∧
    extract_diff_lines "a\n".data "++x\n".data = "".data ∧
    extract_diff_lines "a\n".data "b\n".data = "b".data :=
  ⟨by decide, by decide, by decide⟩
